import Mathlib

/-!
Shallow embedding of the dynamic_scenes core (attributes, attribute timelines,
entity scenes, and the per-device abilities: scene stack, timeshift, state,
update scheduling), translated from `src/dynamic_scenes/` of the repository.
Python ints are unbounded, modelled as `Int`; Python `%` on a
positive modulus is floor-mod, which coincides with Lean's `Int.emod`.
-/

namespace DynSc

/-- Python values carried by attributes: ints or strings. -/
inductive AVal
  | int (n : Int)
  | str (s : String)
deriving DecidableEq, Repr

/-- The concrete attribute classes of the repository
(`Brightness`, `ColorTemp`, `XYBrightness`, `State`, `LightState`).
`LightState` subclasses `State`; the others subclass `Attr` directly. -/
inductive AttrKind
  | brightness
  | colorTemp
  | xyBrightness
  | state
  | lightState
deriving DecidableEq, Repr

/-- `YAML_NAME` class constant of each attribute class. -/
def AttrKind.yamlName : AttrKind → String
  | .brightness => "brightness"
  | .colorTemp => "color_temp"
  | .xyBrightness => "xy_brightness"
  | .state => "state"
  | .lightState => "light_state"

/-- `isSubclassOf a b` : the runtime class `a` is `b` or a subclass of `b`,
mirroring Python `isinstance(x, B)` for an `x` of exact class `a`.
The only proper subclass pair among the attribute classes is
`LightState < State` (`states.py`). -/
def AttrKind.isSubclassOf (a b : AttrKind) : Bool :=
  a = b || (a = .lightState && b = .state)

/-- `_validate_value` of each attribute class, as a predicate:
`true` iff the class's `_validate_value` does not raise.
`State.SUPPORTED_VALUES` is the empty set, so no value validates for it. -/
def AttrKind.validValue : AttrKind → AVal → Bool
  | .brightness, .int n => 0 ≤ n && n ≤ 255
  | .colorTemp, .int n => 153 ≤ n && n ≤ 500
  | .xyBrightness, .int n => 0 ≤ n && n ≤ 255
  | .lightState, .str s => s = "on" || s = "off"
  | _, _ => false

/-- An `Attr` instance: exact runtime class, value, time (seconds since midnight). -/
structure Attr where
  kind : AttrKind
  value : AVal
  time : Int
deriving DecidableEq, Repr

/-- The exceptions the embedded code can raise. -/
inductive PyErr
  | inputValidationError (msg : String)
  | sceneNameError (msg : String)
  | typeError (msg : String)
  | valueError (msg : String)
deriving DecidableEq, Repr

instance {ε α : Type} [DecidableEq ε] [DecidableEq α] : DecidableEq (Except ε α) :=
  fun x y =>
  match x, y with
  | .error a, .error b =>
    if h : a = b then isTrue (by rw [h])
    else isFalse (by intro hh; injection hh; contradiction)
  | .ok a, .ok b =>
    if h : a = b then isTrue (by rw [h])
    else isFalse (by intro hh; injection hh; contradiction)
  | .error _, .ok _ => isFalse (by intro hh; injection hh)
  | .ok _, .error _ => isFalse (by intro hh; injection hh)

/-- `Attr._validate_time`: time must lie in `[0, 86400)`. -/
def validateTime (time : Int) : Bool :=
  !(time < 0 || 24 * 3600 ≤ time)

/-- `Attr.__init__`: validate the time, then the value (`attributes/base.py`).
An invalid time raises `InputValidationError`; the concrete classes raise
`ValueError` from `_validate_value`. -/
def mkAttr (kind : AttrKind) (value : AVal) (time : Int) : Except PyErr Attr :=
  if ¬ validateTime time then
    .error (.inputValidationError "time out of range")
  else if ¬ kind.validValue value then
    .error (.valueError "invalid value")
  else
    .ok ⟨kind, value, time⟩

/-- `Attr._normalize_times_for_interpolation`: midnight wraparound correction. -/
def normalizeTimes (time prevTime nextTime : Int) : Int × Int :=
  if prevTime > nextTime then
    if time ≥ prevTime then
      (prevTime, nextTime + 24 * 3600)
    else
      (prevTime - 24 * 3600, nextTime)
  else
    (prevTime, nextTime)

/-- The interpolation ratio of `Attr.interpolate`:
`(time - prev) / (next - prev)` when the denominator is nonzero, else `0`. -/
def interpRatio (time prevTime nextTime : Int) : ℚ :=
  if prevTime ≠ nextTime then
    ((time : ℚ) - prevTime) / ((nextTime : ℚ) - prevTime)
  else
    0

/-- Python `int(...)` on a number: truncation toward zero. -/
def pyTrunc (q : ℚ) : Int :=
  if 0 ≤ q then ⌊q⌋ else ⌈q⌉

/-- `_interpolate_value` of the concrete classes: the numeric classes compute
`int(self.value + (next_val - self.value) * ratio)`; the state classes return
`self.value` unchanged. The non-int fallback is unreachable for attributes that
passed value validation. -/
def interpolateValue (kind : AttrKind) (selfVal nextVal : AVal) (ratio : ℚ) : AVal :=
  match kind with
  | .state | .lightState => selfVal
  | _ =>
    match selfVal, nextVal with
    | .int a, .int b => .int (pyTrunc ((a : ℚ) + ((b : ℚ) - (a : ℚ)) * ratio))
    | _, _ => selfVal

/-- `Attr.interpolate` (`attributes/base.py`): rejects a `next_attr` that is not
an instance of `type(self)`, normalizes times across midnight, computes the
ratio (0 on a zero denominator), and constructs `type(self)(new_value, new_time)`
— whose constructor re-validates. -/
def Attr.interpolate (self next_attr : Attr) (time : Int) : Except PyErr Attr :=
  if ¬ next_attr.kind.isSubclassOf self.kind then
    .error (.typeError "interpolation type mismatch")
  else
    let pn := normalizeTimes time self.time next_attr.time
    let ratio := interpRatio time pn.1 pn.2
    let newTime := (pn.1 + time) % (24 * 3600)
    let newValue := interpolateValue self.kind self.value next_attr.value ratio
    mkAttr self.kind newValue newTime

/-! ## Attribute timelines (`AttrScene`, `entity_scenes/entity_scenes.py`) -/

/-- An `AttrScene`: the list of keyframes, in the order given at construction. -/
structure AttrScene where
  attrs : List Attr
deriving DecidableEq, Repr

/-- The per-index time check of `AttrScene._validate_attr_scene`:
each keyframe's time strictly exceeds its predecessor's. -/
def timesAscending : List Attr → Bool
  | a :: b :: rest => (decide (a.time < b.time)) && timesAscending (b :: rest)
  | _ => true

/-- The per-index class check of `AttrScene._validate_attr_scene`:
`isinstance(attr, attr_scene[0].__class__)` for every element. -/
def sameClassAsFirst : List Attr → Bool
  | [] => true
  | a0 :: rest => (a0 :: rest).all fun a => a.kind.isSubclassOf a0.kind

/-- `AttrScene.__init__` with `_validate_attr_scene`: nonempty, strictly
ascending times, all elements instances of the first element's class. -/
def mkAttrScene (attrs : List Attr) : Except PyErr AttrScene :=
  if attrs.length = 0 then
    .error (.inputValidationError "attr scene must have at least one attribute")
  else if ¬ timesAscending attrs then
    .error (.inputValidationError "times not ascending")
  else if ¬ sameClassAsFirst attrs then
    .error (.inputValidationError "attr not of the same type as first")
  else
    .ok ⟨attrs⟩

/-- `AttrScene.type`: the class of the first keyframe (timelines are
validated nonempty; the empty default is never exercised). -/
def AttrScene.attrType (s : AttrScene) : AttrKind :=
  match s.attrs with
  | [] => .brightness
  | a :: _ => a.kind

/-- `bisect.bisect_right` on the sorted list of keyframe times: the number of
entries `≤ time`. -/
def bisectRight (times : List Int) (time : Int) : Nat :=
  times.countP fun x => decide (x ≤ time)

/-- `AttrScene.get_attr_at_time`: pick the straddling pair (circularly) and
interpolate. -/
def AttrScene.get_attr_at_time (s : AttrScene) (time : Int) : Except PyErr Attr :=
  match s.attrs with
  | [] => .error (.inputValidationError "empty attr scene")
  | a0 :: rest =>
    let attrs := a0 :: rest
    let idx := bisectRight (attrs.map Attr.time) time
    if idx = 0 ∨ idx = attrs.length then
      (attrs.getLastD a0).interpolate a0 time
    else
      (attrs.getD (idx - 1) a0).interpolate (attrs.getD idx a0) time

/-! ## Entity scenes (`EntityScene`) and constants (`constants.py`) -/

def MAX_PRIORITY : Int := 100

/-- `SCENE.OFF`. -/
def SCENE_OFF : String := "off"

/-- `SCENE.CUSTOM`. -/
def SCENE_CUSTOM : String := "custom"

/-- An `EntityScene`; `scene` keeps the `AttrScene`s the constructor received,
in the iteration order of the Python set. -/
structure EntityScene where
  name : String
  priority : Int
  scene : List AttrScene
deriving DecidableEq, Repr

/-- `EntityScene._validate_priority`. Note the non-custom branch tests
`0 <= priority <= MAX_PRIORITY` (100 inclusive), while its error message
speaks of the range `0`–`MAX_PRIORITY - 1`. -/
def validatePriority (name : String) (priority : Int) : Except PyErr Unit :=
  if name = SCENE_CUSTOM ∧ priority ≠ MAX_PRIORITY then
    .error (.inputValidationError "custom scene must have priority 100")
  else if name ≠ SCENE_CUSTOM ∧ ¬ (0 ≤ priority ∧ priority ≤ MAX_PRIORITY) then
    .error (.inputValidationError "priority not in range 0-99")
  else
    .ok ()

/-- `isinstance(attr_scene_1, type(attr_scene_2))` inside
`EntityScene._validate_scene`: every element of the constructor's
`set[AttrScene]` has exact runtime class `AttrScene` (the repository defines no
subclass of `AttrScene`), so this isinstance test is identically true. -/
def isinstanceAttrSceneOfType (_a _b : AttrScene) : Bool := true

/-- `EntityScene._validate_scene`: nonempty, and the (vacuous) pairwise
`isinstance` duplicate check over distinct indices. -/
def validateSceneSet (scene : List AttrScene) : Except PyErr Unit :=
  if scene.length = 0 then
    .error (.inputValidationError "scene must have at least one attribute")
  else if scene.enum.any fun p1 =>
      scene.enum.any fun p2 =>
        p1.1 ≠ p2.1 && ¬ isinstanceAttrSceneOfType p1.2 p2.2 then
    .error (.inputValidationError "duplicate attribute")
  else
    .ok ()

/-- `EntityScene.__init__`: validate the priority, then the scene set. -/
def mkEntityScene (name : String) (priority : Int) (scene : List AttrScene) :
    Except PyErr EntityScene := do
  validatePriority name priority
  validateSceneSet scene
  .ok ⟨name, priority, scene⟩

/-! ## Python dict helpers (insertion-ordered association lists) -/

/-- `key in d` for a Python dict. -/
def dictContains [DecidableEq κ] (d : List (κ × α)) (k : κ) : Bool :=
  d.any fun p => p.1 = k

/-- `d[key]` lookup. -/
def dictGet? [DecidableEq κ] (d : List (κ × α)) (k : κ) : Option α :=
  (d.find? fun p => p.1 = k).map Prod.snd

/-- `d[key] = v`: overwrite in place, or append (insertion order preserved). -/
def dictInsert [DecidableEq κ] (d : List (κ × α)) (k : κ) (v : α) : List (κ × α) :=
  if dictContains d k then
    d.map fun p => if p.1 = k then (k, v) else p
  else
    d ++ [(k, v)]

/-- `d.pop(key)`. -/
def dictPop [DecidableEq κ] (d : List (κ × α)) (k : κ) : List (κ × α) :=
  d.filter fun p => ¬ p.1 = k

/-! ## Scene stack resolver (`SceneAbility`,
`entities/abilities/scene_ability.py`).
Callbacks are modelled by returning the list of arguments the
`on_scene_change` callback is invoked with during the call. -/

/-- The mutable state of a `SceneAbility`. -/
structure SceneAbility where
  scenes : List (String × EntityScene)
  off_scene : EntityScene
  custom_scene : Option EntityScene
  active_scenes : List (String × EntityScene)
  current_scene : EntityScene
deriving DecidableEq, Repr

/-- Python `==` between an `EntityScene` object and a `str` dict key:
`EntityScene` defines no `__eq__`, so comparison against a value of a different
type falls back to identity and is false. -/
def pyEqEntitySceneStr (_scene : EntityScene) (_key : String) : Bool := false

/-- Line 156 of `scene_ability.py`: `scene not in self._active_scenes` tests the
`EntityScene` object for membership among the dict's `str` keys. -/
def sceneInActiveDict (scene : EntityScene) (active : List (String × EntityScene)) : Bool :=
  active.any fun p => pyEqEntitySceneStr scene p.1

/-- `scene == self._current_scene`: `EntityScene` has no `__eq__`, so Python
compares identities; the stored current scene is the same object as the dict
entry, which structural equality conservatively models here. -/
def pyEqEntityScene (a b : EntityScene) : Bool := a = b

/-- `SceneAbility._get_highest_priority_scene`: Python `max` over the dict's
values with `key=priority` keeps the first maximal element in insertion order,
with the off scene as the default for an empty dict. -/
def getHighestPriorityScene (active : List (String × EntityScene))
    (off_scene : EntityScene) : EntityScene :=
  match active.map Prod.snd with
  | [] => off_scene
  | x :: xs => xs.foldl (fun best s => if s.priority > best.priority then s else best) x

/-- `SceneAbility.set_scene_active`. -/
def setSceneActive (st : SceneAbility) (scene_name : String) :
    Except PyErr (SceneAbility × List EntityScene) :=
  if ¬ dictContains st.scenes scene_name then
    .error (.sceneNameError "scene does not exist for this entity")
  else if scene_name = SCENE_OFF then
    .error (.sceneNameError "cannot activate off scene")
  else if scene_name = SCENE_CUSTOM then
    .error (.sceneNameError "cannot activate custom scene directly")
  else
    match dictGet? st.scenes scene_name with
    | none => .error (.sceneNameError "scene does not exist for this entity")
    | some scene =>
      if dictContains st.active_scenes scene.name then
        .ok (st, [])
      else
        let active := dictInsert st.active_scenes scene.name scene
        if scene.priority > st.current_scene.priority then
          .ok ({ st with active_scenes := active, current_scene := scene }, [scene])
        else
          .ok ({ st with active_scenes := active }, [])

/-- `SceneAbility.set_scene_inactive`. After the name checks, the activity test
is `scene not in self._active_scenes` — the `EntityScene` object against the
dict's `str` keys. -/
def setSceneInactive (st : SceneAbility) (scene_name : String) :
    Except PyErr (SceneAbility × List EntityScene) :=
  if ¬ dictContains st.scenes scene_name then
    .error (.sceneNameError "scene does not exist for this entity")
  else if scene_name = SCENE_OFF then
    .error (.sceneNameError "cannot deactivate off scene")
  else if scene_name = SCENE_CUSTOM then
    .error (.sceneNameError "cannot deactivate custom scene directly")
  else
    match dictGet? st.scenes scene_name with
    | none => .error (.sceneNameError "scene does not exist for this entity")
    | some scene =>
      if ¬ sceneInActiveDict scene st.active_scenes then
        .ok (st, [])
      else
        let active := dictPop st.active_scenes scene.name
        if pyEqEntityScene scene st.current_scene then
          let new_scene := getHighestPriorityScene active st.off_scene
          .ok ({ st with active_scenes := active, current_scene := new_scene },
               [new_scene])
        else
          .ok ({ st with active_scenes := active }, [])

/-- The set comprehension of `set_custom_active`:
`{AttrScene([attr]) for _, attr in state.items()}` (each construction runs
`AttrScene` validation; an error would propagate). -/
def buildCustomAttrScenes : List Attr → Except PyErr (List AttrScene)
  | [] => .ok []
  | attr :: rest => do
    let s ← mkAttrScene [attr]
    let ss ← buildCustomAttrScenes rest
    .ok (s :: ss)

/-- `SceneAbility.set_custom_active`: build the priority-`MAX_PRIORITY` custom
scene from the snapshot's values, set it as current, insert it into the active
dict; no `on_scene_change` callback. -/
def setCustomActive (st : SceneAbility) (state : List Attr) :
    Except PyErr (SceneAbility × List EntityScene) := do
  let custom_attr_scenes ← buildCustomAttrScenes state
  let custom_scene ← mkEntityScene SCENE_CUSTOM MAX_PRIORITY custom_attr_scenes
  .ok ({ st with
          custom_scene := some custom_scene,
          current_scene := custom_scene,
          active_scenes := dictInsert st.active_scenes custom_scene.name custom_scene },
       [])

/-- `SceneAbility.set_custom_inactive`. -/
def setCustomInactive (st : SceneAbility) : SceneAbility × List EntityScene :=
  if dictContains st.active_scenes SCENE_CUSTOM then
    let active := dictPop st.active_scenes SCENE_CUSTOM
    let current := getHighestPriorityScene active st.off_scene
    ({ st with active_scenes := active, custom_scene := none,
               current_scene := current },
     [current])
  else
    (st, [])

/-! ## Time offset (`TimeshiftAbility`,
`entities/abilities/timeshift_ability.py`). State is the stored offset;
operations also return the arguments passed to the change callback. -/

/-- `TimeshiftAbility._correct_for_12h`. -/
def correctFor12h (timeshift : Int) : Int :=
  ((timeshift + 12 * 3600) % (24 * 3600)) - 12 * 3600

/-- A call to the ability: `set(value)` or `shift(delta)`. -/
inductive TimeshiftCall
  | set (value : Int)
  | shift (delta : Int)
deriving DecidableEq, Repr

/-- One `set`/`shift` call: returns the new stored offset and the argument of
the single `on_timeshift_change` invocation the call makes. -/
def timeshiftStep (stored : Int) : TimeshiftCall → Int × Int
  | .set value =>
    let n := correctFor12h value
    (n, n)
  | .shift delta =>
    let n := correctFor12h (stored + delta)
    (n, n)

/-- Run a sequence of calls from a stored offset, collecting every callback
invocation in order. -/
def timeshiftRun (stored : Int) : List TimeshiftCall → Int × List Int
  | [] => (stored, [])
  | c :: rest =>
    let r := timeshiftStep stored c
    let rr := timeshiftRun r.1 rest
    (rr.1, r.2 :: rr.2)

/-! ## Update scheduling (`UpdateAbility`,
`entities/abilities/update_ablility.py`, and the module-level pending-update
registry of `entity_updates.py`). The scheduled coroutine is represented by
the target state it would apply; task cancellations and schedulings are
returned as an event trace. -/

/-- `_EntityUpdate`: id, the target state captured by the update coroutine,
and the delay. -/
structure EntityUpdate where
  update_id : String
  target : List (AttrKind × Attr)
  entity_delay : ℚ
deriving DecidableEq, Repr

/-- Observable scheduling actions of `entity_updates.schedule_update`. -/
inductive UpdateEvent
  | cancelled (update_id : String)
  | scheduled (update_id : String) (target : List (AttrKind × Attr)) (delay : ℚ)
deriving DecidableEq, Repr

/-- State of an `UpdateAbility` together with the module-level
`_pending_updates` dict. -/
structure UpdateState where
  pending_updates : List (String × EntityUpdate)
  prev_update_ids : List String
deriving DecidableEq, Repr

/-- Module-level `schedule_update` (`entity_updates.py`): cancel any pending
update for the id, then store and schedule a fresh one. -/
def moduleScheduleUpdate (pending : List (String × EntityUpdate))
    (update_id : String) (target : List (AttrKind × Attr)) (entity_delay : ℚ) :
    List (String × EntityUpdate) × List UpdateEvent :=
  let cancels :=
    if dictContains pending update_id then [UpdateEvent.cancelled update_id] else []
  let update : EntityUpdate := ⟨update_id, target, entity_delay⟩
  (dictInsert pending update_id update,
   cancels ++ [UpdateEvent.scheduled update_id target entity_delay])

/-- Python `set.add`. -/
def pySetAdd (s : List String) (x : String) : List String :=
  if s.contains x then s else s ++ [x]

/-- `UpdateAbility.schedule_update`: record the id in `_prev_update_ids` and
delegate to the module-level `schedule_update`; the wanted state is captured by
the scheduled coroutine. No comparison with any previously scheduled target is
made. -/
def scheduleUpdate (st : UpdateState) (wanted_state : List (AttrKind × Attr))
    (update_id : String) (entity_delay : ℚ) : UpdateState × List UpdateEvent :=
  let prev := pySetAdd st.prev_update_ids update_id
  let r := moduleScheduleUpdate st.pending_updates update_id wanted_state entity_delay
  (⟨r.1, prev⟩, r.2)

/-! ## Change detector (`StateAbility`,
`entities/abilities/state_ability.py`). -/

/-- `Attr.__eq__` (`attributes/base.py`): `isinstance(other, type(self))`,
equal `YAML_NAME`, equal `_value`; the time plays no part. -/
def pyEqAttr (self other : Attr) : Bool :=
  other.kind.isSubclassOf self.kind
    && self.kind.yamlName = other.kind.yamlName
    && self.value = other.value

/-- `Attr.__ne__`. -/
def pyNeAttr (self other : Attr) : Bool :=
  ¬ pyEqAttr self other

/-- `Attr.__hash__`: `hash((self.YAML_NAME, self._value))`, modelled by the
hashed tuple itself; the time plays no part. -/
def pyHashAttr (a : Attr) : String × AVal :=
  (a.kind.yamlName, a.value)

/-- State of a `StateAbility` relevant to change detection. -/
structure StateAbility where
  internal_state_change : Bool
  current_state : List (String × Attr)
deriving DecidableEq, Repr

/-- `StateAbility.has_changed`: differing sizes, a missing key, or a value for
which `self._current_state[key] != value` means changed. -/
def hasChanged (st : StateAbility) (new_state : List (String × Attr)) : Bool :=
  if new_state.length ≠ st.current_state.length then
    true
  else
    new_state.any fun kv =>
      match dictGet? st.current_state kv.1 with
      | none => true
      | some current => pyNeAttr current kv.2

/-- `StateAbility.with_internal_state_change`: set the flag, run the
caller-supplied action (which sees the state with the flag set and may itself
raise — its outcome is the `Except` it returns), and clear the flag in a
`finally`. There is no `except` clause: the action's outcome, error included,
is handed back to the caller unchanged. -/
def withInternalStateChange (st : StateAbility)
    (action : StateAbility → StateAbility × Except PyErr Unit) :
    StateAbility × Except PyErr Unit :=
  let st1 := { st with internal_state_change := true }
  let r := action st1
  ({ r.1 with internal_state_change := false }, r.2)

/-! ## Concrete fixtures used by the closed theorems and witnesses -/

/-- A brightness keyframe. -/
def bAttr (v t : Int) : Attr := ⟨.brightness, .int v, t⟩

/-- The off scene of the fixtures: brightness 0 at time 0, priority 0. -/
def offSceneFx : EntityScene := ⟨SCENE_OFF, 0, [⟨[bAttr 0 0]⟩]⟩

/-- An ordinary single-keyframe scene of a given name and priority. -/
def namedScene (nm : String) (p : Int) : EntityScene := ⟨nm, p, [⟨[bAttr 50 0]⟩]⟩

/-- A `SceneAbility` with three registered ordinary scenes of priorities
10, 40 and 70, none active yet. -/
def stSA0 : SceneAbility :=
  { scenes := [("s10", namedScene "s10" 10), ("s40", namedScene "s40" 40),
               ("s70", namedScene "s70" 70)]
    off_scene := offSceneFx
    custom_scene := none
    active_scenes := [(SCENE_OFF, offSceneFx)]
    current_scene := offSceneFx }

/-- `stSA0` after activating `"s10"`. -/
def stSA1 : SceneAbility :=
  { stSA0 with
      active_scenes := [(SCENE_OFF, offSceneFx), ("s10", namedScene "s10" 10)]
      current_scene := namedScene "s10" 10 }

/-- `stSA1` after activating `"s40"`. -/
def stSA2 : SceneAbility :=
  { stSA1 with
      active_scenes := [(SCENE_OFF, offSceneFx), ("s10", namedScene "s10" 10),
                        ("s40", namedScene "s40" 40)]
      current_scene := namedScene "s40" 40 }

/-- `stSA2` after activating `"s70"`: all three active, priority 70 winning. -/
def stSA3 : SceneAbility :=
  { stSA2 with
      active_scenes := [(SCENE_OFF, offSceneFx), ("s10", namedScene "s10" 10),
                        ("s40", namedScene "s40" 40), ("s70", namedScene "s70" 70)]
      current_scene := namedScene "s70" 70 }

/-- A `SceneAbility` whose active set holds the off scene and a custom scene. -/
def stSACustom : SceneAbility :=
  { scenes := [("s40", namedScene "s40" 40)]
    off_scene := offSceneFx
    custom_scene := some ⟨SCENE_CUSTOM, MAX_PRIORITY, [⟨[bAttr 5 0]⟩]⟩
    active_scenes := [(SCENE_OFF, offSceneFx), ("s40", namedScene "s40" 40),
                      (SCENE_CUSTOM, ⟨SCENE_CUSTOM, MAX_PRIORITY, [⟨[bAttr 5 0]⟩]⟩)]
    current_scene := ⟨SCENE_CUSTOM, MAX_PRIORITY, [⟨[bAttr 5 0]⟩]⟩ }

/-- Two distinct brightness timelines, i.e. two `AttrScene`s of the same
attribute kind. -/
def dupKindScenes : List AttrScene := [⟨[bAttr 10 0]⟩, ⟨[bAttr 20 3600]⟩]

/-- A concrete wanted state for the update scheduler. -/
def tgtFx : List (AttrKind × Attr) := [(.brightness, bAttr 128 0)]

/-- The custom scene `set_custom_active` builds from a snapshot: reserved name,
priority `MAX_PRIORITY`, one single-keyframe `AttrScene` per snapshot value. -/
def customSceneOf (snap : List Attr) : EntityScene :=
  ⟨SCENE_CUSTOM, MAX_PRIORITY, snap.map fun a => ⟨[a]⟩⟩

/-! ## Theorems -/

theorem isSubclassOf_self (k : AttrKind) : k.isSubclassOf k = true := by
  cases k <;> rfl

theorem yamlName_injective (k1 k2 : AttrKind) (h : k1.yamlName = k2.yamlName) :
    k1 = k2 := by
  revert h; cases k1 <;> cases k2 <;> decide

theorem interpolateValue_self (k : AttrKind) (v : AVal) :
    interpolateValue k v v 0 = v := by
  cases k <;> cases v <;>
    simp [interpolateValue, pyTrunc, Int.floor_intCast, Int.ceil_intCast]

theorem validValue_ne_state (a : Attr) (hv : a.kind.validValue a.value = true) :
    a.kind ≠ .state := by
  intro h
  rw [h] at hv
  cases hval : a.value <;> rw [hval] at hv <;> simp [AttrKind.validValue] at hv

theorem interpolate_self (a : Attr) (t : Int)
    (hv : a.kind.validValue a.value = true) :
    a.interpolate a t = .ok ⟨a.kind, a.value, (a.time + t) % (24 * 3600)⟩ := by
  rw [Attr.interpolate]
  rw [if_neg (by simp [isSubclassOf_self])]
  have hnorm : normalizeTimes t a.time a.time = (a.time, a.time) := by
    simp [normalizeTimes]
  rw [hnorm]
  dsimp only
  have hratio : interpRatio t a.time a.time = 0 := by
    simp [interpRatio]
  rw [hratio, interpolateValue_self]
  rw [mkAttr]
  have hmod0 : 0 ≤ (a.time + t) % (24 * 3600) :=
    Int.emod_nonneg _ (by norm_num)
  have hmod1 : (a.time + t) % (24 * 3600) < 24 * 3600 :=
    Int.emod_lt_of_pos _ (by norm_num)
  rw [if_neg (by simp [validateTime]; omega)]
  rw [if_neg (by simp [hv])]

theorem timeshiftRun_one_callback_per_call (stored : Int)
    (calls : List TimeshiftCall) :
    ((timeshiftRun stored calls).2).length = calls.length := by
  induction calls generalizing stored with
  | nil => rfl
  | cons c rest ih => simp [timeshiftRun, ih]

/-- C4: the stored timeshift is always the requested (or accumulated) value
normalized by `((x + 43200) mod 86400) - 43200`, hence lies in
`[-43200, 43200)`; normalizing is idempotent under accumulation; the change
callback is invoked with the new value on every `set`/`shift`, even when the
normalized value is unchanged; and `shift(+13h)` from a stored `+11h` yields
exactly 0. -/
theorem C4_timeshift_normalization :
    (∀ x : Int, correctFor12h x = ((x + 43200) % 86400) - 43200)
  ∧ (∀ x : Int, -43200 ≤ correctFor12h x ∧ correctFor12h x < 43200)
  ∧ (∀ stored value : Int,
      timeshiftStep stored (.set value) = (correctFor12h value, correctFor12h value))
  ∧ (∀ stored delta : Int,
      timeshiftStep stored (.shift delta)
        = (correctFor12h (stored + delta), correctFor12h (stored + delta)))
  ∧ (∀ a d : Int, correctFor12h (correctFor12h a + d) = correctFor12h (a + d))
  ∧ (∀ stored : Int, ∀ calls : List TimeshiftCall,
      ((timeshiftRun stored calls).2).length = calls.length)
  ∧ timeshiftRun 0 [.set (11 * 3600), .shift (13 * 3600)] = (0, [39600, 0])
  ∧ timeshiftRun 0 [.set 300, .set 300] = (300, [300, 300]) := by
  refine ⟨?_, ?_, ?_, ?_, ?_, timeshiftRun_one_callback_per_call, by decide, by decide⟩
  · intro x; unfold correctFor12h; omega
  · intro x; unfold correctFor12h; omega
  · intro stored value; rfl
  · intro stored delta; rfl
  · intro a d; unfold correctFor12h; omega

/-- C5: the interpolation ratio is defined as 0 whenever the normalized
previous and next times coincide (no division error), and for a
single-keyframe `AttrScene` (which validates successfully) every lookup in
`[0, 86400)` returns an `Attr` carrying exactly the keyframe's value. -/
theorem C5_single_keyframe_ratio_zero (a : Attr) (t tq pq : Int)
    (hv : a.kind.validValue a.value = true) (h0 : 0 ≤ t) (h1 : t < 86400) :
    interpRatio tq pq pq = 0
  ∧ mkAttrScene [a] = .ok ⟨[a]⟩
  ∧ AttrScene.get_attr_at_time ⟨[a]⟩ t
      = .ok ⟨a.kind, a.value, (a.time + t) % (24 * 3600)⟩ := by
  refine ⟨by simp [interpRatio], ?_, ?_⟩
  · simp [mkAttrScene, timesAscending, sameClassAsFirst, isSubclassOf_self]
  · rw [AttrScene.get_attr_at_time]
    have hidx : bisectRight ([a].map Attr.time) t = 0
        ∨ bisectRight ([a].map Attr.time) t = 1 := by
      simp [bisectRight, List.countP]
      by_cases h : a.time ≤ t <;> simp [List.countP.go, h]
    dsimp only
    rw [if_pos (by simpa using hidx)]
    simpa using interpolate_self a t hv

/-- C5 witness: the single brightness keyframe (value 100, 01:00) queried at
midnight yields value 100. -/
theorem C5_witness :
    ((bAttr 100 3600).kind.validValue (bAttr 100 3600).value = true)
  ∧ (0 : Int) ≤ 0 ∧ (0 : Int) < 86400
  ∧ (interpRatio 7 5 5 = 0
     ∧ mkAttrScene [bAttr 100 3600] = .ok ⟨[bAttr 100 3600]⟩
     ∧ AttrScene.get_attr_at_time ⟨[bAttr 100 3600]⟩ 0
        = .ok ⟨.brightness, .int 100, (3600 + 0) % (24 * 3600)⟩) :=
  ⟨by decide, by decide, by decide,
   C5_single_keyframe_ratio_zero (bAttr 100 3600) 0 7 5 (by decide) (by decide)
     (by decide)⟩

/-- C6: interpolating an `Attr` that passed value validation against an `Attr`
of a different attribute class raises `TypeError` — the `isinstance` guard can
only be satisfied across distinct classes by a `LightState` next-attribute on a
`State` receiver, and no `State` instance passes validation. -/
theorem C6_interpolate_type_mismatch (a b : Attr) (t : Int)
    (hv : a.kind.validValue a.value = true) (hk : a.kind ≠ b.kind) :
    a.interpolate b t = .error (.typeError "interpolation type mismatch") := by
  have hsub : b.kind.isSubclassOf a.kind = false := by
    have hstate := validValue_ne_state a hv
    revert hk hstate
    cases a.kind <;> cases b.kind <;> decide
  rw [Attr.interpolate, if_pos (by simp [hsub])]

/-- C6 witness: a valid brightness attribute interpolated against a color-temp
attribute raises the type mismatch. -/
theorem C6_witness :
    ((bAttr 10 0).kind.validValue (bAttr 10 0).value = true)
  ∧ (bAttr 10 0).kind ≠ (Attr.mk .colorTemp (.int 200) 0).kind
  ∧ (bAttr 10 0).interpolate ⟨.colorTemp, .int 200, 0⟩ 0
      = .error (.typeError "interpolation type mismatch") :=
  ⟨by decide, by decide,
   C6_interpolate_type_mismatch (bAttr 10 0) ⟨.colorTemp, .int 200, 0⟩ 0
     (by decide) (by decide)⟩

/-- C9 (amended): `with_internal_state_change` runs the action on the state
with the internal-change flag set, the flag is false after the call on every
exit path — including an action that raises — and the action's outcome, an
exception included, is returned to the caller unchanged (the `try`/`finally`
has no `except` clause, so an exception propagates rather than being logged
and swallowed). -/
theorem C9_flag_cleared_error_propagates (st : StateAbility)
    (action : StateAbility → StateAbility × Except PyErr Unit) :
    (withInternalStateChange st action).1.internal_state_change = false
  ∧ (withInternalStateChange st action).2
      = (action { st with internal_state_change := true }).2 :=
  ⟨rfl, rfl⟩

/-- C9 counterexample: an action that raises `ValueError` makes
`with_internal_state_change` itself deliver that error to the caller — the
exception is propagated, not swallowed (the flag is nevertheless cleared). -/
theorem C9_error_propagates_counterexample :
    (withInternalStateChange ⟨false, []⟩
        (fun s => (s, .error (.valueError "boom")))).2
      = .error (.valueError "boom")
  ∧ (withInternalStateChange ⟨false, []⟩
        (fun s => (s, .error (.valueError "boom")))).1.internal_state_change
      = false := by
  decide

theorem mkAttrScene_singleton (a : Attr) : mkAttrScene [a] = .ok ⟨[a]⟩ := by
  simp [mkAttrScene, timesAscending, sameClassAsFirst, isSubclassOf_self]

theorem buildCustomAttrScenes_ok (snap : List Attr) :
    buildCustomAttrScenes snap = .ok (snap.map fun a => ⟨[a]⟩) := by
  induction snap with
  | nil => rfl
  | cons a rest ih =>
    rw [buildCustomAttrScenes, mkAttrScene_singleton]
    simp [Bind.bind, Except.bind, ih]

theorem mkEntityScene_custom (scenes : List AttrScene) (h : scenes ≠ []) :
    mkEntityScene SCENE_CUSTOM MAX_PRIORITY scenes
      = .ok ⟨SCENE_CUSTOM, MAX_PRIORITY, scenes⟩ := by
  have h0 : scenes.length ≠ 0 := by simpa using h
  simp [mkEntityScene, validatePriority, validateSceneSet, SCENE_CUSTOM,
        MAX_PRIORITY, isinstanceAttrSceneOfType, h0]
  rfl

/-- C2 (amended): for every nonempty snapshot, `set_custom_active` builds the
priority-`MAX_PRIORITY` custom scene — one single-keyframe `AttrScene` per
snapshot attribute — inserts it into the active dict, makes it the current
scene, and invokes no scene-change callback; `set_custom_inactive`, whenever
the custom scene is in the active dict, removes it, recomputes the winner
from the remaining active set (off scene as fallback), and invokes the
callback with the new winner. -/
theorem C2_custom_scene_activation (st st2 : SceneAbility) (snap : List Attr)
    (hne : snap ≠ [])
    (hc : dictContains st2.active_scenes SCENE_CUSTOM = true) :
    setCustomActive st snap
      = .ok ({ st with
                custom_scene := some (customSceneOf snap),
                current_scene := customSceneOf snap,
                active_scenes :=
                  dictInsert st.active_scenes SCENE_CUSTOM (customSceneOf snap) },
             [])
  ∧ (customSceneOf snap).priority = MAX_PRIORITY
  ∧ setCustomInactive st2
      = ({ st2 with
            active_scenes := dictPop st2.active_scenes SCENE_CUSTOM,
            custom_scene := none,
            current_scene :=
              getHighestPriorityScene (dictPop st2.active_scenes SCENE_CUSTOM)
                st2.off_scene },
         [getHighestPriorityScene (dictPop st2.active_scenes SCENE_CUSTOM)
            st2.off_scene]) := by
  refine ⟨?_, rfl, ?_⟩
  · have hmapne : snap.map (fun a => (⟨[a]⟩ : AttrScene)) ≠ [] := by
      simpa using hne
    rw [setCustomActive, buildCustomAttrScenes_ok]
    simp only [Bind.bind, Except.bind]
    rw [mkEntityScene_custom _ hmapne]
    rfl
  · simp [setCustomInactive, hc]

/-- C2 counterexample: with an empty snapshot, `set_custom_active` raises a
validation error (a scene must hold at least one attribute) instead of
activating a custom scene. -/
theorem C2_empty_snapshot_raises :
    setCustomActive stSA0 []
      = .error (.inputValidationError "scene must have at least one attribute") := by
  decide

/-- C2 witness: activating the custom scene on the three-scene fixture with a
one-attribute snapshot, and deactivating it on a fixture whose active set
holds the custom scene. -/
theorem C2_witness :
    ([bAttr 5 0] ≠ ([] : List Attr))
  ∧ dictContains stSACustom.active_scenes SCENE_CUSTOM = true
  ∧ (setCustomActive stSA0 [bAttr 5 0]
      = .ok ({ stSA0 with
                custom_scene := some (customSceneOf [bAttr 5 0]),
                current_scene := customSceneOf [bAttr 5 0],
                active_scenes :=
                  dictInsert stSA0.active_scenes SCENE_CUSTOM
                    (customSceneOf [bAttr 5 0]) },
             [])
    ∧ (customSceneOf [bAttr 5 0]).priority = MAX_PRIORITY
    ∧ setCustomInactive stSACustom
        = ({ stSACustom with
              active_scenes := dictPop stSACustom.active_scenes SCENE_CUSTOM,
              custom_scene := none,
              current_scene :=
                getHighestPriorityScene
                  (dictPop stSACustom.active_scenes SCENE_CUSTOM)
                  stSACustom.off_scene },
           [getHighestPriorityScene
              (dictPop stSACustom.active_scenes SCENE_CUSTOM)
              stSACustom.off_scene])) :=
  ⟨by decide, by decide,
   C2_custom_scene_activation stSA0 stSACustom [bAttr 5 0] (by decide) (by decide)⟩

/-- C10: `Attr.__eq__` holds exactly when the two instances are of the same
attribute class with equal `YAML_NAME` and equal value — the time field plays
no part in `__eq__` or `__hash__` — and consequently `has_changed` reports no
change between states whose attributes carry equal values at different
times-of-day. -/
theorem C10_attr_equality_ignores_time (a b : Attr) (t1 t2 : Int) (fl : Bool)
    (cur new : List (String × Attr))
    (hlen : new.length = cur.length)
    (hvals : ∀ kv ∈ new,
      ∃ w : Attr, dictGet? cur kv.1 = some w ∧ pyEqAttr w kv.2 = true) :
    (pyEqAttr a b = true ↔ (a.kind = b.kind ∧ a.value = b.value))
  ∧ pyEqAttr ⟨a.kind, a.value, t1⟩ ⟨b.kind, b.value, t2⟩ = pyEqAttr a b
  ∧ pyHashAttr ⟨a.kind, a.value, t1⟩ = pyHashAttr a
  ∧ hasChanged ⟨fl, cur⟩ new = false := by
  refine ⟨?_, rfl, rfl, ?_⟩
  · simp only [pyEqAttr, Bool.and_eq_true, decide_eq_true_eq]
    constructor
    · rintro ⟨⟨hs, hn⟩, hv⟩
      exact ⟨yamlName_injective a.kind b.kind hn, hv⟩
    · rintro ⟨hk, hv⟩
      exact ⟨⟨by rw [hk]; exact isSubclassOf_self _, by rw [hk]⟩, hv⟩
  · rw [hasChanged]
    dsimp only
    rw [if_neg (by simp [hlen])]
    have hany : ¬ ((new.any fun kv =>
        match dictGet? cur kv.1 with
        | none => true
        | some current => pyNeAttr current kv.2) = true) := by
      simp only [List.any_eq_true]
      rintro ⟨kv, hkv, hp⟩
      obtain ⟨w, hw, heq⟩ := hvals kv hkv
      rw [hw] at hp
      simp [pyNeAttr, heq] at hp
    exact Bool.eq_false_iff.mpr hany

/-- C10 witness: two one-key states holding brightness 100 at different times
count as unchanged; equality and hash ignore the time fields. -/
theorem C10_witness :
    ([("brightness", bAttr 100 3600)].length
        = [("brightness", bAttr 100 0)].length)
  ∧ (∀ kv ∈ [("brightness", bAttr 100 3600)],
      ∃ w : Attr, dictGet? [("brightness", bAttr 100 0)] kv.1 = some w
        ∧ pyEqAttr w kv.2 = true)
  ∧ ((pyEqAttr (bAttr 1 0) (bAttr 1 5) = true
        ↔ ((bAttr 1 0).kind = (bAttr 1 5).kind
            ∧ (bAttr 1 0).value = (bAttr 1 5).value))
    ∧ pyEqAttr ⟨(bAttr 1 0).kind, (bAttr 1 0).value, 0⟩
        ⟨(bAttr 1 5).kind, (bAttr 1 5).value, 9⟩ = pyEqAttr (bAttr 1 0) (bAttr 1 5)
    ∧ pyHashAttr ⟨(bAttr 1 0).kind, (bAttr 1 0).value, 0⟩ = pyHashAttr (bAttr 1 0)
    ∧ hasChanged ⟨false, [("brightness", bAttr 100 0)]⟩
        [("brightness", bAttr 100 3600)] = false) :=
  ⟨by decide,
   by
     intro kv hkv
     simp only [List.mem_singleton] at hkv
     subst hkv
     exact ⟨bAttr 100 0, by decide, by decide⟩,
   C10_attr_equality_ignores_time (bAttr 1 0) (bAttr 1 5) 0 9 false
     [("brightness", bAttr 100 0)] [("brightness", bAttr 100 3600)]
     (by decide)
     (by
       intro kv hkv
       simp only [List.mem_singleton] at hkv
       subst hkv
       exact ⟨bAttr 100 0, by decide, by decide⟩)⟩

/-- C1: activating the priority-10, -40 and -70 scenes makes the priority-70
scene the winner, but `set_scene_inactive` on the active, winning scene
`"s70"` then returns the state unmodified and fires no callback: the claimed
removal of the scene from the active set and winner recomputation do not
happen, because line 156 tests the `EntityScene` object for membership among
the active dict's `str` keys, which is always false. -/
theorem C1_set_scene_inactive_is_noop :
    setSceneActive stSA0 "s10" = .ok (stSA1, [namedScene "s10" 10])
  ∧ setSceneActive stSA1 "s40" = .ok (stSA2, [namedScene "s40" 40])
  ∧ setSceneActive stSA2 "s70" = .ok (stSA3, [namedScene "s70" 70])
  ∧ stSA3.current_scene = namedScene "s70" 70
  ∧ dictContains stSA3.active_scenes "s70" = true
  ∧ setSceneInactive stSA3 "s70" = .ok (stSA3, []) := by
  decide

/-- C3: scheduling an update and then scheduling again with the *same* target
state and id is not a no-op: the second call cancels the pending update and
schedules a new one, since `schedule_update` never compares the target with
the previously scheduled one. -/
theorem C3_schedule_same_target_not_noop :
    (scheduleUpdate ⟨[], []⟩ tgtFx "light.x" 0).2
      = [.scheduled "light.x" tgtFx 0]
  ∧ (scheduleUpdate (scheduleUpdate ⟨[], []⟩ tgtFx "light.x" 0).1
        tgtFx "light.x" 0).2
      = [.cancelled "light.x", .scheduled "light.x" tgtFx 0] := by
  decide

/-- C7: constructing an `EntityScene` from two `AttrScene`s of the same
attribute kind (both brightness timelines) succeeds — no validation error is
raised, because the duplicate check compares runtime classes via `isinstance`
(always `AttrScene`) instead of attribute kinds. -/
theorem C7_duplicate_kind_accepted :
    dupKindScenes.map AttrScene.attrType = [.brightness, .brightness]
  ∧ mkEntityScene "test" 5 dupKindScenes = .ok ⟨"test", 5, dupKindScenes⟩ := by
  decide

/-- C8: `EntityScene` priority validation accepts priority 100 for an ordinary
(non-custom) scene name — `0 <= priority <= MAX_PRIORITY` is inclusive at 100 —
while 101 and -1 are rejected, and the custom name requires exactly 100. -/
theorem C8_priority_100_accepted_for_ordinary_scene :
    mkEntityScene "daytime" 100 [⟨[bAttr 10 0]⟩]
      = .ok ⟨"daytime", 100, [⟨[bAttr 10 0]⟩]⟩
  ∧ validatePriority "daytime" 100 = .ok ()
  ∧ validatePriority "daytime" 101
      = .error (.inputValidationError "priority not in range 0-99")
  ∧ validatePriority "daytime" (-1)
      = .error (.inputValidationError "priority not in range 0-99")
  ∧ validatePriority "custom" 100 = .ok ()
  ∧ validatePriority "custom" 99
      = .error (.inputValidationError "custom scene must have priority 100") := by
  decide

end DynSc
